import Mathlib

/-!
Shallow embedding of `lms/djangoapps/discussion/rest_api/api.py` (discussion
forum REST API orchestration layer) together with theorems settling the
specification claims about it.

The remote comment-storage service, course access machinery, serializers and
Django forms are external collaborators of the module; they are represented by
explicit environment records carrying the responses those collaborators give
for the one request being modelled.  Side effects (saves, signal sends,
tracking events, comment-service mutation calls) are recorded in an explicit
effect list.
-/

namespace DiscussionApi

/-- Python truthiness of an optional integer (`None` and `0` are falsy). -/
def optNatTruthy : Option Nat → Bool
  | none => false
  | some n => n != 0

/-- Python truthiness of an optional string (`None` and the empty string are falsy). -/
def optStrTruthy : Option String → Bool
  | none => false
  | some s => s != ""

/-- Python truthiness of an optional string list (`None` and `[]` are falsy). -/
def optListTruthy : Option (List String) → Bool
  | none => false
  | some l => !l.isEmpty

/-- The error taxonomy raised by the api module (section 7 of the spec):
course, discussion, thread, comment and page lookup failures, permission
denials, field validation failures (carrying field/message pairs), the
`ValueError` for mutually exclusive thread-list filters, and the discussion
blackout rejection. -/
inductive ApiError where
  | courseNotFound
  | discussionDisabled
  | threadNotFound
  | commentNotFound
  | discussionNotFound (missing : List String)
  | pageNotFound
  | permissionDenied
  | validationError (fields : List (String × String))
  | valueError
  | discussionBlackOut
deriving DecidableEq, Repr

/-- A child comment of a response, as returned by the comment service. -/
structure CCChild where
  id : String
deriving DecidableEq, Repr

/-- A response (top-level comment) of a thread, as returned by the comment
service; carries its child comments. -/
structure CCResponse where
  id : String
  children : List CCChild
deriving DecidableEq, Repr

/-- The thread record returned by the comment service (`Thread.retrieve`),
restricted to the fields the api module reads. -/
structure CCThread where
  course_id : String
  commentable_id : String
  thread_type : String
  closed : Bool
  read : Bool
  group_id : Option Nat
  children : List CCResponse
  resp_total : Nat
  endorsed_responses : List CCResponse
  non_endorsed_responses : List CCResponse
  non_endorsed_resp_total : Nat
deriving DecidableEq, Repr

/-- Environment for `_get_thread_and_context`: the comment-service answer to
the thread retrieval (`none` models a `CommentClientRequestError`), the result
of `_get_course` for the thread's course, the requester's privilege flag from
the serializer context, the `is_commentable_divided` answer for the thread's
commentable, and `get_group_id_for_user` for the requester. -/
structure ThreadEnv where
  retrieveThread : Option CCThread
  courseAccess : Except ApiError Unit
  is_requester_privileged : Bool
  is_divided : Bool
  requester_group_id : Option Nat

/-- Embedding of `_get_thread_and_context` (api.py lines 137-168): retrieve the
thread (a service failure becomes `ThreadNotFoundError`), resolve the course
(course errors propagate), then enforce cohort visibility: a non-privileged
requester whose group id is present and differs from the group id of a
group-restricted thread in a divided commentable gets `ThreadNotFoundError`. -/
def _get_thread_and_context (env : ThreadEnv) : Except ApiError CCThread :=
  match env.retrieveThread with
  | none => .error .threadNotFound
  | some cc_thread =>
    match env.courseAccess with
    | .error e => .error e
    | .ok _ =>
      if !env.is_requester_privileged && optNatTruthy cc_thread.group_id && env.is_divided then
        match env.requester_group_id with
        | some g => if cc_thread.group_id ≠ some g then .error .threadNotFound else .ok cc_thread
        | none => .ok cc_thread
      else .ok cc_thread

/-- Embedding of `get_thread` (api.py lines 1133-1157): retrieval plus
serialization; serialization is an external collaborator, so the serialized
thread is represented by the service record itself. -/
def get_thread (env : ThreadEnv) : Except ApiError CCThread :=
  match _get_thread_and_context env with
  | .error e => .error e
  | .ok cc_thread => .ok cc_thread

/-- Paginated response assembled by the api functions.  Modelled from the spec:
`DiscussionAPIPagination` lives in the module's missing `pagination.py` and
wraps a result list with the page number, number of pages and result count. -/
structure PaginatedResult (α : Type) where
  page : Nat
  num_pages : Nat
  count : Nat
  results : List α
  text_search_rewrite : Option String
deriving DecidableEq, Repr

/-- Embedding of `get_comment_list` (api.py lines 725-797): retrieve the thread
with responses, split on thread type and the `endorsed` parameter (question
threads require it, discussion threads forbid it), fail with
`PageNotFoundError` on an empty non-first page, and compute the page count by
ceiling division with an empty collection reported as one page. -/
def get_comment_list (env : ThreadEnv) (endorsed : Option Bool) (page page_size : Nat) :
    Except ApiError (PaginatedResult CCResponse) :=
  let response_skip := page_size * (page - 1)
  match _get_thread_and_context env with
  | .error e => .error e
  | .ok cc_thread =>
    let branch : Except ApiError (List CCResponse × Nat) :=
      if cc_thread.thread_type = "question" then
        match endorsed with
        | none =>
          .error (.validationError [("endorsed", "This field is required for question threads.")])
        | some true =>
          .ok ((cc_thread.endorsed_responses.drop response_skip).take page_size,
               cc_thread.endorsed_responses.length)
        | some false =>
          .ok (cc_thread.non_endorsed_responses, cc_thread.non_endorsed_resp_total)
      else
        match endorsed with
        | some _ =>
          .error
            (.validationError [("endorsed", "This field may not be specified for discussion threads.")])
        | none => .ok (cc_thread.children, cc_thread.resp_total)
    match branch with
    | .error e => .error e
    | .ok (responses, resp_total) =>
      if responses.isEmpty && page != 1 then .error .pageNotFound
      else
        let num_pages := if resp_total != 0 then (resp_total + page_size - 1) / page_size else 1
        .ok { page := page, num_pages := num_pages, count := resp_total,
              results := responses, text_search_rewrite := none }

/-- Side effects performed against the comment service, the signal bus and the
tracking pipeline. -/
inductive Effect where
  | save
  | delete
  | comment_created_signal
  | thread_edited_signal
  | comment_edited_signal
  | thread_deleted_signal
  | comment_deleted_signal
  | thread_voted_signal
  | comment_voted_signal
  | track_voted_event (undo_vote : Bool)
  | track_comment_created_event
  | vote_up
  | unvote
  | follow
  | unfollow
  | flag_abuse
  | unflag_abuse
  | mark_read
  | pin
  | un_pin
deriving DecidableEq, Repr

/-- Kind of discussion entity operated on (the `DiscussionEntity` enum on
api.py lines 109-114, also `cc_content.type` in `_handle_voted_field`). -/
inductive EntityKind where
  | thread
  | comment
deriving DecidableEq, Repr

/-- The serialized api payload (`serializer.data`) restricted to the fields the
api module reads or writes after serialization. -/
structure Payload where
  read : Bool
  unread_comment_count : Nat
  vote_count : Int
  voted : Bool
  following : Bool
  abuse_flagged : Bool
  pinned : Bool
deriving DecidableEq, Repr

/-- Dictionary read `api_content[field]` for the boolean action fields. -/
def Payload.getAction (p : Payload) : String → Bool
  | "following" => p.following
  | "voted" => p.voted
  | "abuse_flagged" => p.abuse_flagged
  | "read" => p.read
  | "pinned" => p.pinned
  | _ => false

/-- Dictionary write `api_content[field] = form_value` for the boolean action
fields. -/
def Payload.setAction (p : Payload) (field : String) (v : Bool) : Payload :=
  if field = "following" then { p with following := v }
  else if field = "voted" then { p with voted := v }
  else if field = "abuse_flagged" then { p with abuse_flagged := v }
  else if field = "read" then { p with read := v }
  else if field = "pinned" then { p with pinned := v }
  else p

/-- Cleaned data of an actions form: one boolean per action field. -/
structure ActionsCleaned where
  following : Bool
  voted : Bool
  abuse_flagged : Bool
  read : Bool
  pinned : Bool
deriving DecidableEq, Repr

/-- Modelled from the spec: the missing `forms.py` declares
`ThreadActionsForm`, whose fields are the boolean thread actions of
section 4.6 (following, voted, abuse flag, read, pinned). -/
def threadActionFields : List String :=
  ["following", "voted", "abuse_flagged", "read", "pinned"]

/-- Modelled from the spec: `CommentActionsForm` of the missing `forms.py`
carries the action fields applicable to comments; per the handler docstrings in
api.py, following, read and pinned operate on threads, leaving voted and the
abuse flag for comments. -/
def commentActionFields : List String :=
  ["voted", "abuse_flagged"]

/-- Items of `actions_form.cleaned_data` for a thread actions form, in field
declaration order. -/
def ActionsCleaned.threadItems (c : ActionsCleaned) : List (String × Bool) :=
  [("following", c.following), ("voted", c.voted), ("abuse_flagged", c.abuse_flagged),
   ("read", c.read), ("pinned", c.pinned)]

/-- Items of `actions_form.cleaned_data` for a comment actions form. -/
def ActionsCleaned.commentItems (c : ActionsCleaned) : List (String × Bool) :=
  [("voted", c.voted), ("abuse_flagged", c.abuse_flagged)]

/-- Embedding of `_handle_voted_field` (api.py lines 910-922): send the
thread/comment voted signal, vote or unvote adjusting the payload vote count by
one, and emit the vote tracking event with the undo flag set exactly on
unvote. -/
def _handle_voted_field (kind : EntityKind) (form_value : Bool) (api_content : Payload) :
    Payload × List Effect :=
  let signal := if kind = EntityKind.thread then Effect.thread_voted_signal
    else Effect.comment_voted_signal
  if form_value then
    ({ api_content with vote_count := api_content.vote_count + 1 },
     [signal, .vote_up, .track_voted_event false])
  else
    ({ api_content with vote_count := api_content.vote_count - 1 },
     [signal, .unvote, .track_voted_event true])

/-- Embedding of `_handle_read_field` (api.py lines 925-933): mark as read only
when requested true and the service record is unread, zeroing the unread
comment count. -/
def _handle_read_field (api_content : Payload) (form_value : Bool) (cc_read : Bool) :
    Payload × List Effect :=
  if form_value && !cc_read then
    ({ api_content with unread_comment_count := 0 }, [.mark_read])
  else (api_content, [])

/-- Dispatch of one action field inside `_do_extra_actions` (api.py lines
877-891), after `api_content[field]` has been set: follow/unfollow, abuse
flag/unflag, vote handling, mark read, pin/unpin, and the `Invalid Key`
validation error for anything else. -/
def applyAction (kind : EntityKind) (cc_read : Bool) (field : String) (form_value : Bool)
    (api_content : Payload) : Except ApiError (Payload × List Effect) :=
  if field = "following" then
    .ok (api_content, if form_value then [.follow] else [.unfollow])
  else if field = "abuse_flagged" then
    .ok (api_content, if form_value then [.flag_abuse] else [.unflag_abuse])
  else if field = "voted" then
    .ok (_handle_voted_field kind form_value api_content)
  else if field = "read" then
    .ok (_handle_read_field api_content form_value cc_read)
  else if field = "pinned" then
    .ok (api_content, if form_value then [.pin] else [.un_pin])
  else .error (.validationError [(field, "Invalid Key")])

/-- One iteration of the `_do_extra_actions` loop (api.py lines 877-891): when
the field was present in the request and its cleaned value differs from the
payload value, record the new value on the payload and dispatch the handler,
appending its effects. -/
def extraActionStep (kind : EntityKind) (cc_read : Bool) (request_fields : List String)
    (st : Payload × List Effect) (item : String × Bool) :
    Except ApiError (Payload × List Effect) :=
  let field := item.1
  let form_value := item.2
  if request_fields.contains field && form_value != st.1.getAction field then
    match applyAction kind cc_read field form_value (st.1.setAction field form_value) with
    | .error e => .error e
    | .ok (api2, handlerEffects) => .ok (api2, st.2 ++ handlerEffects)
  else .ok st

/-- Embedding of `_do_extra_actions` (api.py lines 872-891): walk the cleaned
action-form data; for every field that was present in the request and whose
value differs from the serialized payload, record the new value on the payload
and perform the corresponding side-effecting call. -/
def _do_extra_actions (kind : EntityKind) (cc_read : Bool) (request_fields : List String)
    (cleanedItems : List (String × Bool)) (api_content : Payload) :
    Except ApiError (Payload × List Effect) :=
  cleanedItems.foldlM (extraActionStep kind cc_read request_fields) (api_content, [])

/-- Environment for `update_thread`: the thread retrieval environment, the
editable-field set computed by the external permission module, the keys of the
update data, the validity verdicts and aggregated errors of the external
serializer and actions form, the serialized payload, and the cleaned action
values. -/
structure UpdateThreadEnv where
  threadEnv : ThreadEnv
  editable_fields : List String
  updateKeys : List String
  serializerValid : Bool
  actionsFormValid : Bool
  form_errors : List (String × String)
  serializerData : Payload
  cleaned : ActionsCleaned

/-- Embedding of `update_thread` (api.py lines 1050-1086): retrieve and check
the thread, reject non-editable fields, validate, save and send the edit signal
only when the update data holds a key outside the action-form fields, run the
extra actions, and unconditionally override the returned payload as read with a
zero unread count. -/
def update_thread (env : UpdateThreadEnv) : Except ApiError (Payload × List Effect) :=
  match _get_thread_and_context env.threadEnv with
  | .error e => .error e
  | .ok cc_thread =>
    let non_allowed := env.updateKeys.filter (fun k => !env.editable_fields.contains k)
    if !non_allowed.isEmpty then
      .error (.validationError (non_allowed.map (fun k => (k, "This field is not editable."))))
    else if !(env.serializerValid && env.actionsFormValid) then
      .error (.validationError env.form_errors)
    else
      let saveEffects :=
        if !(env.updateKeys.filter (fun k => !threadActionFields.contains k)).isEmpty then
          [Effect.save, Effect.thread_edited_signal]
        else []
      match _do_extra_actions .thread cc_thread.read env.updateKeys
          env.cleaned.threadItems env.serializerData with
      | .error e => .error e
      | .ok (api_thread, extraEffects) =>
        .ok ({ api_thread with read := true, unread_comment_count := 0 },
             saveEffects ++ extraEffects)

/-- The comment record returned by the comment service (`Comment.retrieve`),
restricted to the fields the api module reads. -/
structure CCCommentRec where
  id : String
  thread_id : String
deriving DecidableEq, Repr

/-- Environment for `_get_comment_and_context`: the comment-service answer to
the comment retrieval (`none` models a `CommentClientRequestError`) and the
thread environment for the comment's thread. -/
structure CommentEnv where
  retrieveComment : Option CCCommentRec
  threadEnv : ThreadEnv

/-- Embedding of `_get_comment_and_context` (api.py lines 171-184): retrieve
the comment (a service failure becomes `CommentNotFoundError`) and run the
thread retrieval and cohort check for its thread, propagating thread and course
errors. -/
def _get_comment_and_context (env : CommentEnv) : Except ApiError CCCommentRec :=
  match env.retrieveComment with
  | none => .error .commentNotFound
  | some cc_comment =>
    match _get_thread_and_context env.threadEnv with
    | .error e => .error e
    | .ok _ => .ok cc_comment

/-- Environment for `update_comment`, mirroring `UpdateThreadEnv` over a
comment. -/
structure UpdateCommentEnv where
  commentEnv : CommentEnv
  editable_fields : List String
  updateKeys : List String
  serializerValid : Bool
  actionsFormValid : Bool
  form_errors : List (String × String)
  serializerData : Payload
  cleaned : ActionsCleaned

/-- Embedding of `update_comment` (api.py lines 1089-1130): like
`update_thread` but over a comment, with the comment actions form, and with no
read override on the returned payload. -/
def update_comment (env : UpdateCommentEnv) : Except ApiError (Payload × List Effect) :=
  match _get_comment_and_context env.commentEnv with
  | .error e => .error e
  | .ok _ =>
    let non_allowed := env.updateKeys.filter (fun k => !env.editable_fields.contains k)
    if !non_allowed.isEmpty then
      .error (.validationError (non_allowed.map (fun k => (k, "This field is not editable."))))
    else if !(env.serializerValid && env.actionsFormValid) then
      .error (.validationError env.form_errors)
    else
      let saveEffects :=
        if !(env.updateKeys.filter (fun k => !commentActionFields.contains k)).isEmpty then
          [Effect.save, Effect.comment_edited_signal]
        else []
      match _do_extra_actions .comment false env.updateKeys
          env.cleaned.commentItems env.serializerData with
      | .error e => .error e
      | .ok (api_comment, extraEffects) =>
        .ok (api_comment, saveEffects ++ extraEffects)

/-- Environment for `create_comment`: the `thread_id` entry of the comment
data, the thread environment, the blackout-window verdict
(`discussion_open_for_user`), the initializable-field set from the external
permission module, the comment data keys, serializer and form verdicts, the
serialized payload and cleaned action values. -/
structure CreateCommentEnv where
  thread_id : Option String
  threadEnv : ThreadEnv
  discussion_open : Bool
  initializable_fields : List String
  dataKeys : List String
  serializerValid : Bool
  actionsFormValid : Bool
  form_errors : List (String × String)
  serializerData : Payload
  cleaned : ActionsCleaned

/-- Embedding of `create_comment` (api.py lines 1005-1047): require a truthy
`thread_id`, retrieve the thread (with cohort check), reject during a blackout
window, reject a closed thread, check initializable fields, validate, save and
send the creation signal, run extra actions, then emit the creation tracking
event. -/
def create_comment (env : CreateCommentEnv) : Except ApiError (Payload × List Effect) :=
  if !optStrTruthy env.thread_id then
    .error (.validationError [("thread_id", "This field is required.")])
  else
    match _get_thread_and_context env.threadEnv with
    | .error e => .error e
    | .ok cc_thread =>
      if !env.discussion_open then .error .discussionBlackOut
      else if cc_thread.closed then .error .permissionDenied
      else
        let non_allowed := env.dataKeys.filter (fun k => !env.initializable_fields.contains k)
        if !non_allowed.isEmpty then
          .error
            (.validationError (non_allowed.map (fun k => (k, "This field is not initializable."))))
        else if !(env.serializerValid && env.actionsFormValid) then
          .error (.validationError env.form_errors)
        else
          match _do_extra_actions .comment false env.dataKeys
              env.cleaned.commentItems env.serializerData with
          | .error e => .error e
          | .ok (api_comment, extraEffects) =>
            .ok (api_comment,
                 [Effect.save, Effect.comment_created_signal] ++ extraEffects ++
                   [Effect.track_comment_created_event])

/-- Embedding of `delete_thread` (api.py lines 1220-1241): retrieve the thread
(with cohort check), then delete and send the deletion signal when the external
permission module allows it, else `PermissionDenied`.  The `can_delete` verdict
of the missing permission module is passed in. -/
def delete_thread (env : ThreadEnv) (can_delete : Bool) : Except ApiError (List Effect) :=
  match _get_thread_and_context env with
  | .error e => .error e
  | .ok _ =>
    if can_delete then .ok [Effect.delete, Effect.thread_deleted_signal]
    else .error .permissionDenied

/-- Environment for `get_response_comments`: the comment-service answer to the
comment retrieval and the thread environment for the comment's thread. -/
structure ResponseCommentsEnv where
  retrieveComment : Option CCCommentRec
  threadEnv : ThreadEnv

/-- Embedding of `get_response_comments` (api.py lines 1160-1217): retrieve the
comment and its thread, gather the thread's responses (endorsed then
non-endorsed for question threads), locate the response with the requested id,
page over its children, fail with `PageNotFoundError` on an empty non-first
page, and report ceiling-divided page counts with an empty collection counted
as one page. -/
def get_response_comments (env : ResponseCommentsEnv) (comment_id : String)
    (page page_size : Nat) : Except ApiError (PaginatedResult CCChild) :=
  match env.retrieveComment with
  | none => .error .commentNotFound
  | some _ =>
    match _get_thread_and_context env.threadEnv with
    | .error e => .error e
    | .ok cc_thread =>
      let thread_responses :=
        if cc_thread.thread_type = "question" then
          cc_thread.endorsed_responses ++ cc_thread.non_endorsed_responses
        else cc_thread.children
      let response_comments :=
        match thread_responses.find? (fun r => r.id = comment_id) with
        | some r => r.children
        | none => []
      let response_skip := page_size * (page - 1)
      let paged_response_comments := (response_comments.drop response_skip).take page_size
      if paged_response_comments.isEmpty && page != 1 then .error .pageNotFound
      else
        let comments_count := response_comments.length
        let num_pages :=
          if comments_count != 0 then (comments_count + page_size - 1) / page_size else 1
        .ok { page := page, num_pages := num_pages, count := comments_count,
              results := paged_response_comments, text_search_rewrite := none }

/-- Python truthiness of an optional boolean (only `True` is truthy). -/
def optBoolTruthy : Option Bool → Bool
  | some b => b
  | none => false

/-- The query-parameter dictionary `get_thread_list` sends to the comment
service (api.py lines 672-701). -/
structure QueryParams where
  user_id : Nat
  group_id : Option Nat
  page : Nat
  per_page : Nat
  text : Option String
  sort_key : Option String
  author_id : Option Nat
  flagged : Option Bool
  thread_type : Option String
  count_flagged : Option Bool
  unread : Option String
  unanswered : Option String
  course_id : Option String
  commentable_ids : Option String
deriving DecidableEq, Repr

/-- A page of results returned by the comment service for a thread search or a
subscribed-threads call; thread records themselves are opaque to the claims and
represented by their ids. -/
structure ServicePage where
  page : Nat
  num_pages : Nat
  thread_count : Nat
  collection : List String
  corrected_text : Option String
deriving DecidableEq, Repr

/-- Environment for `get_thread_list`: course resolution, the requesting
user's id, privilege flag and group id, the username-to-id lookup of the user
store, and the two comment-service endpoints as functions of the query
parameters. -/
structure ThreadListEnv where
  courseAccess : Except ApiError Unit
  course_id : String
  user_id : Nat
  is_requester_privileged : Bool
  requester_group_id : Option Nat
  lookup_user_id : String → Option Nat
  search : QueryParams → ServicePage
  subscribed_threads : QueryParams → ServicePage

/-- The `cc_map` ordering-key translation of api.py line 643. -/
def cc_map (order_by : String) : Option String :=
  if order_by = "last_activity_at" then some "activity"
  else if order_by = "comment_count" then some "comments"
  else if order_by = "vote_count" then some "votes"
  else none

/-- The view-filter block of `get_thread_list` (api.py lines 688-694): a
recognized view sets the matching query key to the string true; for any other
truthy view the code builds a `ValidationError` object but never raises it, so
the query is left unchanged. -/
def applyView (query_params : QueryParams) (view : Option String) : QueryParams :=
  if optStrTruthy view then
    let v := view.getD ""
    if v = "unread" then { query_params with unread := some "true" }
    else if v = "unanswered" then { query_params with unanswered := some "true" }
    else query_params
  else query_params

/-- Arguments of `get_thread_list` other than paging, bundled for reuse in the
theorems. -/
structure ThreadListArgs where
  topic_id_list : Option (List String)
  text_search : Option String
  following : Bool
  author : Option String
  thread_type : Option String
  flagged : Option Bool
  view : Option String
  order_by : String
  order_direction : String
  count_flagged : Option Bool

/-- Count of truthy mutually exclusive filters (api.py line 639). -/
def exclusiveParamCount (args : ThreadListArgs) : Nat :=
  (if optListTruthy args.topic_id_list then 1 else 0) +
    (if optStrTruthy args.text_search then 1 else 0) +
    (if args.following then 1 else 0)

/-- The service response `get_thread_list` obtains: the base query dictionary,
the view block, then either the subscribed-threads call or the search call with
course id, joined commentable ids and text re-set (api.py lines 672-702). -/
def threadListServiceResponse (env : ThreadListEnv) (args : ThreadListArgs)
    (page page_size : Nat) (author_id : Option Nat) : ServicePage :=
  let base : QueryParams :=
    { user_id := env.user_id,
      group_id := if env.is_requester_privileged then none else env.requester_group_id,
      page := page, per_page := page_size,
      text := args.text_search,
      sort_key := cc_map args.order_by,
      author_id := author_id,
      flagged := args.flagged,
      thread_type := args.thread_type,
      count_flagged := args.count_flagged,
      unread := none, unanswered := none,
      course_id := none, commentable_ids := none }
  let query_params := applyView base args.view
  if args.following then env.subscribed_threads query_params
  else
    env.search
      { query_params with
        course_id := some env.course_id,
        commentable_ids :=
          if optListTruthy args.topic_id_list then
            some (String.intercalate "," (args.topic_id_list.getD []))
          else none,
        text := args.text_search }

/-- Embedding of `get_thread_list` (api.py lines 580-722): reject multiple
mutually exclusive filters, validate the ordering key and direction, resolve
the course, resolve the author filter returning an empty page when the username
does not exist, require privilege for `count_flagged`, query the comment
service, fail with `PageNotFoundError` when the service page differs from the
requested one, and assemble the paginated response. -/
def get_thread_list (env : ThreadListEnv) (args : ThreadListArgs) (page page_size : Nat) :
    Except ApiError (PaginatedResult String) :=
  if exclusiveParamCount args > 1 then .error .valueError
  else if (cc_map args.order_by).isNone then
    .error (.validationError [("order_by", "Invalid value.")])
  else if args.order_direction ≠ "desc" then
    .error (.validationError [("order_direction", "Invalid value.")])
  else
    match env.courseAccess with
    | .error e => .error e
    | .ok _ =>
      if optStrTruthy args.author && (env.lookup_user_id (args.author.getD "")).isNone then
        .ok { page := 0, num_pages := 1, count := 0, results := [],
              text_search_rewrite := none }
      else
        let author_id :=
          if optStrTruthy args.author then env.lookup_user_id (args.author.getD "") else none
        if optBoolTruthy args.count_flagged && !env.is_requester_privileged then
          .error .permissionDenied
        else
          let paginated_results := threadListServiceResponse env args page page_size author_id
          if paginated_results.page ≠ page then .error .pageNotFound
          else
            .ok { page := paginated_results.page,
                  num_pages := paginated_results.num_pages,
                  count := paginated_results.thread_count,
                  results := paginated_results.collection,
                  text_search_rewrite := paginated_results.corrected_text }

/-- Lexicographic comparison of character lists by code point, the ordering
Python's `sorted` uses on strings. -/
def charListLe : List Char → List Char → Bool
  | [], _ => true
  | _ :: _, [] => false
  | a :: as, b :: bs =>
    if a.toNat < b.toNat then true
    else if b.toNat < a.toNat then false
    else charListLe as bs

/-- String comparison by code point (Python string ordering). -/
def pyStrLe (a b : String) : Bool := charListLe a.data b.data

/-- Python `sorted` on strings: stable merge sort by code-point order. -/
def sortStrings (l : List String) : List String := l.mergeSort pyStrLe

/-- Python `sorted` with a string key function: stable merge sort. -/
def sortByKey {α : Type} (key : α → String) (l : List α) : List α :=
  l.mergeSort (fun a b => pyStrLe (key a) (key b))

/-- A discussion xblock as seen by `get_courseware_topics`: its discussion id,
category, target name and optional sort key. -/
structure DXBlock where
  discussion_id : String
  discussion_category : String
  discussion_target : String
  sort_key : Option String
deriving DecidableEq, Repr

/-- The xblock sort key of api.py lines 310-315: `sort_key` falling back to
`discussion_target` when absent or empty (Python `or`). -/
def get_xblock_sort_key (x : DXBlock) : String :=
  if optStrTruthy x.sort_key then x.sort_key.getD "" else x.discussion_target

/-- A leaf discussion topic (the `DiscussionTopic` instances built with no
children); the thread-list URL is represented by the topic ids it carries. -/
structure TopicLeaf where
  id : Option String
  name : String
  url_topic_ids : List String
  thread_counts : Option (Nat × Nat)
deriving DecidableEq, Repr

/-- The `DiscussionTopic` constructor default (api.py lines 92-106) for a leaf:
with no children and no counts supplied, the counts default to zero for each
thread type. -/
def mkTopicLeaf (id : Option String) (name : String) (url_topic_ids : List String)
    (thread_counts : Option (Nat × Nat)) : TopicLeaf :=
  { id := id, name := name, url_topic_ids := url_topic_ids,
    thread_counts := if thread_counts.isNone then some (0, 0) else thread_counts }

/-- A category node of the courseware topic tree, holding leaf subtopics. -/
structure TopicNode where
  id : Option String
  name : String
  url_topic_ids : List String
  children : List TopicLeaf
  thread_counts : Option (Nat × Nat)
deriving DecidableEq, Repr

/-- One iteration of the category loop of `get_courseware_topics` (api.py
lines 326-350): sort the category's xblocks by sort key, keep those passing
the topic-id filter as leaf topics, collect the requested ids that exist, and
append a category node whenever there is no filter or a child was kept. -/
def coursewareCategoryStep (xblocks : List DXBlock) (topic_ids : Option (List String))
    (thread_counts : String → Option (Nat × Nat)) (acc : List TopicNode × List String)
    (category : String) : List TopicNode × List String :=
  let sorted_xblocks :=
    sortByKey get_xblock_sort_key
      (xblocks.filter (fun x => x.discussion_category = category))
  let children :=
    (sorted_xblocks.filter
        (fun x =>
          !optListTruthy topic_ids || (topic_ids.getD []).contains x.discussion_id)).map
      (fun x =>
        mkTopicLeaf (some x.discussion_id) x.discussion_target [x.discussion_id]
          (thread_counts x.discussion_id))
  let existing :=
    (sorted_xblocks.filter
        (fun x =>
          optListTruthy topic_ids && (topic_ids.getD []).contains x.discussion_id)).map
      (fun x => x.discussion_id)
  let nodes :=
    if !optListTruthy topic_ids || !children.isEmpty then
      acc.1 ++
        [{ id := none, name := category,
           url_topic_ids := sorted_xblocks.map (fun x => x.discussion_id),
           children := children, thread_counts := none }]
    else acc.1
  (nodes, acc.2 ++ existing)

/-- Embedding of `get_courseware_topics` (api.py lines 282-352): group the
accessible discussion xblocks by category, walk categories in sorted order
applying the category step, building the topic trees and the set of requested
ids that exist among the courseware topics. -/
def get_courseware_topics (xblocks : List DXBlock) (topic_ids : Option (List String))
    (thread_counts : String → Option (Nat × Nat)) : List TopicNode × List String :=
  let categories := sortStrings (xblocks.map (fun x => x.discussion_category)).dedup
  categories.foldl (coursewareCategoryStep xblocks topic_ids thread_counts) ([], [])

/-- An entry of `course.discussion_topics`: the configured freestanding topic
id and optional sort key (the entry's dictionary). -/
structure FreeEntry where
  id : String
  sort_key : Option String
deriving DecidableEq, Repr

/-- Embedding of `get_non_courseware_topics` (api.py lines 355-395): sort the
configured freestanding topics by sort key falling back to the topic name, keep
those passing the topic-id filter as leaf topics, and collect the requested ids
that exist. -/
def get_non_courseware_topics (discussion_topics : List (String × FreeEntry))
    (topic_ids : Option (List String)) (thread_counts : String → Option (Nat × Nat)) :
    List TopicLeaf × List String :=
  let sorted_topics :=
    sortByKey
      (fun item =>
        match item.2.sort_key with
        | some s => s
        | none => item.1)
      discussion_topics
  let topics :=
    (sorted_topics.filter
        (fun item => !optListTruthy topic_ids || (topic_ids.getD []).contains item.2.id)).map
      (fun item =>
        mkTopicLeaf (some item.2.id) item.1 [item.2.id] (thread_counts item.2.id))
  let existing :=
    (sorted_topics.filter
        (fun item => optListTruthy topic_ids && (topic_ids.getD []).contains item.2.id)).map
      (fun item => item.2.id)
  (topics, existing)

/-- Environment for `get_course_topics`: course resolution, the accessible
discussion xblocks, the configured freestanding topics, and the per-topic
thread-type counts supplied by the comment service. -/
structure CourseTopicsEnv where
  courseAccess : Except ApiError Unit
  xblocks : List DXBlock
  discussion_topics : List (String × FreeEntry)
  thread_counts : String → Option (Nat × Nat)

/-- Embedding of `get_course_topics` (api.py lines 398-437): resolve the
course, build the courseware and freestanding topic listings, and when a truthy
topic-id filter was given fail with `DiscussionNotFoundError` carrying every
requested id found in neither listing. -/
def get_course_topics (env : CourseTopicsEnv) (topic_ids : Option (List String)) :
    Except ApiError (List TopicNode × List TopicLeaf) :=
  match env.courseAccess with
  | .error e => .error e
  | .ok _ =>
    let cw := get_courseware_topics env.xblocks topic_ids env.thread_counts
    let ncw := get_non_courseware_topics env.discussion_topics topic_ids env.thread_counts
    if optListTruthy topic_ids then
      let not_found_topic_ids :=
        (topic_ids.getD []).filter (fun i => !(cw.2.contains i || ncw.2.contains i))
      if !not_found_topic_ids.isEmpty then .error (.discussionNotFound not_found_topic_ids)
      else .ok (cw.1, ncw.1)
    else .ok (cw.1, ncw.1)

/-! ## Claim C1: cohort visibility of group-restricted threads -/

/-- C1: for every non-privileged requester whose assigned group differs from
the group of a group-restricted thread in a divided commentable, every
operation retrieving the thread (thread detail, comment listing, comment
creation, thread update and delete) fails with `ThreadNotFoundError`, while a
privileged requester in the same situation retrieves the thread. -/
theorem group_restricted_thread_hidden (env : ThreadEnv) (cc_thread : CCThread) (n g : Nat)
    (hret : env.retrieveThread = some cc_thread)
    (hcourse : env.courseAccess = .ok ())
    (hpriv : env.is_requester_privileged = false)
    (hdiv : env.is_divided = true)
    (hgroup : cc_thread.group_id = some n) (hn : n ≠ 0)
    (hreq : env.requester_group_id = some g)
    (hne : n ≠ g) :
    _get_thread_and_context env = .error .threadNotFound ∧
    get_thread env = .error .threadNotFound ∧
    (∀ (endorsed : Option Bool) (page page_size : Nat),
      get_comment_list env endorsed page page_size = .error .threadNotFound) ∧
    (∀ uenv : UpdateThreadEnv, uenv.threadEnv = env →
      update_thread uenv = .error .threadNotFound) ∧
    (∀ cenv : CreateCommentEnv, cenv.threadEnv = env → optStrTruthy cenv.thread_id = true →
      create_comment cenv = .error .threadNotFound) ∧
    (∀ can_delete : Bool, delete_thread env can_delete = .error .threadNotFound) ∧
    _get_thread_and_context { env with is_requester_privileged := true } = .ok cc_thread := by
  have hmain : _get_thread_and_context env = .error .threadNotFound := by
    simp [_get_thread_and_context, hret, hcourse, hpriv, hdiv, hgroup, hreq, optNatTruthy, hn, hne]
  have hexempt :
      _get_thread_and_context { env with is_requester_privileged := true } = .ok cc_thread := by
    simp [_get_thread_and_context, hret, hcourse]
  refine ⟨hmain, ?_, ?_, ?_, ?_, ?_, hexempt⟩
  · simp [get_thread, hmain]
  · intro endorsed page page_size
    simp [get_comment_list, hmain]
  · intro uenv huenv
    simp [update_thread, huenv, hmain]
  · intro cenv hcenv htid
    simp [create_comment, htid, hcenv, hmain]
  · intro can_delete
    simp [delete_thread, hmain]

/-- Witness for C1 at a concrete environment: thread restricted to group 2,
requester in group 1, not privileged, divided commentable. -/
theorem group_restricted_thread_hidden_witness :
    (ThreadEnv.mk
        (some { course_id := "c", commentable_id := "t", thread_type := "discussion",
                closed := false, read := false, group_id := some 2, children := [],
                resp_total := 0, endorsed_responses := [], non_endorsed_responses := [],
                non_endorsed_resp_total := 0 })
        (.ok ()) false true (some 1)).retrieveThread =
      some { course_id := "c", commentable_id := "t", thread_type := "discussion",
             closed := false, read := false, group_id := some 2, children := [],
             resp_total := 0, endorsed_responses := [], non_endorsed_responses := [],
             non_endorsed_resp_total := 0 } ∧
    _get_thread_and_context
        (ThreadEnv.mk
          (some { course_id := "c", commentable_id := "t", thread_type := "discussion",
                  closed := false, read := false, group_id := some 2, children := [],
                  resp_total := 0, endorsed_responses := [], non_endorsed_responses := [],
                  non_endorsed_resp_total := 0 })
          (.ok ()) false true (some 1)) = .error .threadNotFound := by
  refine ⟨rfl, ?_⟩
  exact (group_restricted_thread_hidden
    (ThreadEnv.mk
      (some { course_id := "c", commentable_id := "t", thread_type := "discussion",
              closed := false, read := false, group_id := some 2, children := [],
              resp_total := 0, endorsed_responses := [], non_endorsed_responses := [],
              non_endorsed_resp_total := 0 })
      (.ok ()) false true (some 1))
    { course_id := "c", commentable_id := "t", thread_type := "discussion",
      closed := false, read := false, group_id := some 2, children := [],
      resp_total := 0, endorsed_responses := [], non_endorsed_responses := [],
      non_endorsed_resp_total := 0 }
    2 1 rfl rfl rfl rfl rfl (by decide) rfl (by decide)).1

/-! ## Claim C2: endorsed parameter validation in get_comment_list -/

/-- C2: listing comments on a question thread with `endorsed` unspecified
fails validation, specifying it on a discussion thread fails validation, and in
the two remaining combinations no validation error at all (in particular none
about `endorsed`) is raised. -/
theorem get_comment_list_endorsed_validation (env : ThreadEnv) (cc_thread : CCThread)
    (page page_size : Nat)
    (hret : _get_thread_and_context env = .ok cc_thread) :
    (cc_thread.thread_type = "question" →
      get_comment_list env none page page_size =
        .error
          (.validationError [("endorsed", "This field is required for question threads.")])) ∧
    (cc_thread.thread_type ≠ "question" → ∀ b : Bool,
      get_comment_list env (some b) page page_size =
        .error
          (.validationError
            [("endorsed", "This field may not be specified for discussion threads.")])) ∧
    (∀ endorsed : Option Bool, (cc_thread.thread_type = "question" ↔ endorsed ≠ none) →
      ∀ fs, get_comment_list env endorsed page page_size ≠ .error (.validationError fs)) := by
  refine ⟨?_, ?_, ?_⟩
  · intro hq
    simp [get_comment_list, hret, hq]
  · intro hd b
    simp [get_comment_list, hret, hd]
  · intro endorsed hiff fs
    match endorsed with
    | none =>
      have hd : ¬ cc_thread.thread_type = "question" := by simpa using hiff
      simp only [get_comment_list, hret, if_neg hd]
      split <;> simp
    | some b =>
      have hq : cc_thread.thread_type = "question" := by
        rcases hiff with ⟨_, h2⟩
        exact h2 (by simp)
      cases b <;>
        · simp only [get_comment_list, hret, if_pos hq]
          split <;> simp

/-- Witness for C2 at a concrete environment: a question thread, listed with
`endorsed` unspecified, fails with the required-field validation error. -/
theorem get_comment_list_endorsed_validation_witness :
    _get_thread_and_context
        (ThreadEnv.mk
          (some { course_id := "c", commentable_id := "t", thread_type := "question",
                  closed := false, read := false, group_id := none, children := [],
                  resp_total := 0, endorsed_responses := [], non_endorsed_responses := [],
                  non_endorsed_resp_total := 0 })
          (.ok ()) false false none) =
      .ok { course_id := "c", commentable_id := "t", thread_type := "question",
            closed := false, read := false, group_id := none, children := [],
            resp_total := 0, endorsed_responses := [], non_endorsed_responses := [],
            non_endorsed_resp_total := 0 } ∧
    get_comment_list
        (ThreadEnv.mk
          (some { course_id := "c", commentable_id := "t", thread_type := "question",
                  closed := false, read := false, group_id := none, children := [],
                  resp_total := 0, endorsed_responses := [], non_endorsed_responses := [],
                  non_endorsed_resp_total := 0 })
          (.ok ()) false false none) none 1 10 =
      .error (.validationError [("endorsed", "This field is required for question threads.")]) := by
  refine ⟨by rfl, ?_⟩
  exact (get_comment_list_endorsed_validation
    (ThreadEnv.mk
      (some { course_id := "c", commentable_id := "t", thread_type := "question",
              closed := false, read := false, group_id := none, children := [],
              resp_total := 0, endorsed_responses := [], non_endorsed_responses := [],
              non_endorsed_resp_total := 0 })
      (.ok ()) false false none)
    { course_id := "c", commentable_id := "t", thread_type := "question",
      closed := false, read := false, group_id := none, children := [],
      resp_total := 0, endorsed_responses := [], non_endorsed_responses := [],
      non_endorsed_resp_total := 0 }
    1 10 (by rfl)).1 rfl

/-! ## Claim C3: out-of-range pages fail, empty first pages succeed -/

/-- C3: a page beyond the available range fails with `PageNotFoundError` for
the thread listing (service page differs from the requested one), for the
comment listing and for the response-comment listing (empty results on a page
other than one), while page one of an empty collection is returned as an empty
page rather than an error. -/
theorem page_beyond_range_not_found :
    (∀ (env : ThreadListEnv) (args : ThreadListArgs) (page page_size : Nat),
      exclusiveParamCount args ≤ 1 →
      (cc_map args.order_by).isSome = true →
      args.order_direction = "desc" →
      env.courseAccess = .ok () →
      args.author = none →
      optBoolTruthy args.count_flagged = false →
      ((threadListServiceResponse env args page page_size none).page ≠ page →
        get_thread_list env args page page_size = .error .pageNotFound) ∧
      ((threadListServiceResponse env args page page_size none).page = page →
        get_thread_list env args page page_size =
          .ok { page := (threadListServiceResponse env args page page_size none).page,
                num_pages := (threadListServiceResponse env args page page_size none).num_pages,
                count := (threadListServiceResponse env args page page_size none).thread_count,
                results := (threadListServiceResponse env args page page_size none).collection,
                text_search_rewrite :=
                  (threadListServiceResponse env args page page_size none).corrected_text })) ∧
    (∀ (env : ThreadEnv) (cc_thread : CCThread) (page page_size : Nat),
      _get_thread_and_context env = .ok cc_thread →
      (cc_thread.thread_type ≠ "question" → cc_thread.children = [] → page ≠ 1 →
        get_comment_list env none page page_size = .error .pageNotFound) ∧
      (cc_thread.thread_type ≠ "question" → cc_thread.children = [] →
        cc_thread.resp_total = 0 →
        get_comment_list env none 1 page_size =
          .ok { page := 1, num_pages := 1, count := 0, results := [],
                text_search_rewrite := none }) ∧
      (cc_thread.thread_type = "question" →
        cc_thread.endorsed_responses.length ≤ page_size * (page - 1) → page ≠ 1 →
        get_comment_list env (some true) page page_size = .error .pageNotFound) ∧
      (cc_thread.thread_type = "question" → cc_thread.endorsed_responses = [] →
        get_comment_list env (some true) 1 page_size =
          .ok { page := 1, num_pages := 1, count := 0, results := [],
                text_search_rewrite := none }) ∧
      (cc_thread.thread_type = "question" → cc_thread.non_endorsed_responses = [] →
        page ≠ 1 →
        get_comment_list env (some false) page page_size = .error .pageNotFound) ∧
      (cc_thread.thread_type = "question" → cc_thread.non_endorsed_responses = [] →
        cc_thread.non_endorsed_resp_total = 0 →
        get_comment_list env (some false) 1 page_size =
          .ok { page := 1, num_pages := 1, count := 0, results := [],
                text_search_rewrite := none })) ∧
    (∀ (env : ResponseCommentsEnv) (cc_comment : CCCommentRec) (cc_thread : CCThread)
        (r : CCResponse) (comment_id : String) (page page_size : Nat),
      env.retrieveComment = some cc_comment →
      _get_thread_and_context env.threadEnv = .ok cc_thread →
      ((if cc_thread.thread_type = "question" then
          cc_thread.endorsed_responses ++ cc_thread.non_endorsed_responses
        else cc_thread.children).find? (fun resp => resp.id = comment_id)) = some r →
      (r.children.length ≤ page_size * (page - 1) → page ≠ 1 →
        get_response_comments env comment_id page page_size = .error .pageNotFound) ∧
      (r.children = [] →
        get_response_comments env comment_id 1 page_size =
          .ok { page := 1, num_pages := 1, count := 0, results := [],
                text_search_rewrite := none })) := by
  refine ⟨?_, ?_, ?_⟩
  · intro env args page page_size hexcl horder hdir hcourse hauthor hflag
    have hnotgt : ¬ exclusiveParamCount args > 1 := by omega
    have hisnone : (cc_map args.order_by).isNone = false := by
      simp [Option.isNone_eq_false_iff, ← Option.isSome_iff_exists]
      simpa using horder
    constructor
    · intro hne
      simp [get_thread_list, hnotgt, hisnone, hdir, hcourse, hauthor, optStrTruthy, hflag, hne]
    · intro heq
      simp [get_thread_list, hnotgt, hisnone, hdir, hcourse, hauthor, optStrTruthy, hflag, heq]
  · intro env cc_thread page page_size hret
    refine ⟨?_, ?_, ?_, ?_, ?_, ?_⟩
    · intro hd hchildren hpage
      simp [get_comment_list, hret, hd, hchildren, hpage]
    · intro hd hchildren htotal
      simp [get_comment_list, hret, hd, hchildren, htotal]
    · intro hq hlen hpage
      have hnil : (cc_thread.endorsed_responses.drop (page_size * (page - 1))).take page_size
          = [] := by
        simp [List.drop_eq_nil_iff, hlen]
      simp [get_comment_list, hret, hq, hnil, hpage]
    · intro hq hnil
      simp [get_comment_list, hret, hq, hnil]
    · intro hq hnil hpage
      simp [get_comment_list, hret, hq, hnil, hpage]
    · intro hq hnil htotal
      simp [get_comment_list, hret, hq, hnil, htotal]
  · intro env cc_comment cc_thread r comment_id page page_size hretc hrett hfind
    constructor
    · intro hlen hpage
      have hnil : (r.children.drop (page_size * (page - 1))).take page_size = [] := by
        simp [List.drop_eq_nil_iff, hlen]
      simp [get_response_comments, hretc, hrett, hfind, hnil, hpage]
    · intro hnil
      simp [get_response_comments, hretc, hrett, hfind, hnil]

/-- Witness for C3 at concrete inputs: a thread search whose service answer
reports page 2 against a requested page 1 fails, an empty discussion thread
listed at page 2 fails but succeeds empty at page 1, and a response with no
child comments listed at page 2 fails. -/
theorem page_beyond_range_not_found_witness :
    (cc_map "last_activity_at").isSome = true ∧
    get_thread_list
        (ThreadListEnv.mk (.ok ()) "course-v1" 7 false none (fun _ => none)
          (fun _ => ServicePage.mk 2 5 50 [] none)
          (fun _ => ServicePage.mk 1 1 0 [] none))
        (ThreadListArgs.mk none none false none none none none "last_activity_at" "desc" none)
        1 10 = .error .pageNotFound ∧
    get_comment_list
        (ThreadEnv.mk
          (some { course_id := "c", commentable_id := "t", thread_type := "discussion",
                  closed := false, read := false, group_id := none, children := [],
                  resp_total := 0, endorsed_responses := [], non_endorsed_responses := [],
                  non_endorsed_resp_total := 0 })
          (.ok ()) false false none) none 2 10 = .error .pageNotFound ∧
    get_comment_list
        (ThreadEnv.mk
          (some { course_id := "c", commentable_id := "t", thread_type := "discussion",
                  closed := false, read := false, group_id := none, children := [],
                  resp_total := 0, endorsed_responses := [], non_endorsed_responses := [],
                  non_endorsed_resp_total := 0 })
          (.ok ()) false false none) none 1 10 =
      .ok { page := 1, num_pages := 1, count := 0, results := [],
            text_search_rewrite := none } ∧
    get_response_comments
        (ResponseCommentsEnv.mk (some { id := "c1", thread_id := "t1" })
          (ThreadEnv.mk
            (some { course_id := "c", commentable_id := "t", thread_type := "discussion",
                    closed := false, read := false, group_id := none,
                    children := [{ id := "c1", children := [] }],
                    resp_total := 1, endorsed_responses := [], non_endorsed_responses := [],
                    non_endorsed_resp_total := 0 })
            (.ok ()) false false none))
        "c1" 2 10 = .error .pageNotFound := by
  have h := page_beyond_range_not_found
  refine ⟨rfl, ?_, ?_, ?_, ?_⟩
  · exact (h.1
      (ThreadListEnv.mk (.ok ()) "course-v1" 7 false none (fun _ => none)
        (fun _ => ServicePage.mk 2 5 50 [] none)
        (fun _ => ServicePage.mk 1 1 0 [] none))
      (ThreadListArgs.mk none none false none none none none "last_activity_at" "desc" none)
      1 10 (by decide) rfl rfl rfl rfl rfl).1 (by decide)
  · exact ((h.2.1
      (ThreadEnv.mk
        (some { course_id := "c", commentable_id := "t", thread_type := "discussion",
                closed := false, read := false, group_id := none, children := [],
                resp_total := 0, endorsed_responses := [], non_endorsed_responses := [],
                non_endorsed_resp_total := 0 })
        (.ok ()) false false none)
      { course_id := "c", commentable_id := "t", thread_type := "discussion",
        closed := false, read := false, group_id := none, children := [],
        resp_total := 0, endorsed_responses := [], non_endorsed_responses := [],
        non_endorsed_resp_total := 0 }
      2 10 rfl).1 (by decide) rfl (by decide))
  · exact ((h.2.1
      (ThreadEnv.mk
        (some { course_id := "c", commentable_id := "t", thread_type := "discussion",
                closed := false, read := false, group_id := none, children := [],
                resp_total := 0, endorsed_responses := [], non_endorsed_responses := [],
                non_endorsed_resp_total := 0 })
        (.ok ()) false false none)
      { course_id := "c", commentable_id := "t", thread_type := "discussion",
        closed := false, read := false, group_id := none, children := [],
        resp_total := 0, endorsed_responses := [], non_endorsed_responses := [],
        non_endorsed_resp_total := 0 }
      1 10 rfl).2.1 (by decide) rfl rfl)
  · exact ((h.2.2
      (ResponseCommentsEnv.mk (some { id := "c1", thread_id := "t1" })
        (ThreadEnv.mk
          (some { course_id := "c", commentable_id := "t", thread_type := "discussion",
                  closed := false, read := false, group_id := none,
                  children := [{ id := "c1", children := [] }],
                  resp_total := 1, endorsed_responses := [], non_endorsed_responses := [],
                  non_endorsed_resp_total := 0 })
          (.ok ()) false false none))
      { id := "c1", thread_id := "t1" }
      { course_id := "c", commentable_id := "t", thread_type := "discussion",
        closed := false, read := false, group_id := none,
        children := [{ id := "c1", children := [] }],
        resp_total := 1, endorsed_responses := [], non_endorsed_responses := [],
        non_endorsed_resp_total := 0 }
      { id := "c1", children := [] }
      "c1" 2 10 rfl rfl (by decide)).1 (by decide) (by decide))

/-! ## Claim C9: page counts of the comment listings -/

/-- The `(total + page_size - 1) / page_size` expression used by both comment
listings agrees with Mathlib's ceiling division and satisfies the ceiling
bounds whenever the total is nonzero. -/
theorem add_pred_div_is_ceil (a b : Nat) (hb : 0 < b) (ha : a ≠ 0) :
    (a + b - 1) / b = a ⌈/⌉ b ∧ a ≤ b * ((a + b - 1) / b) ∧
      b * ((a + b - 1) / b - 1) < a := by
  have hdef : a ⌈/⌉ b = (a + b - 1) / b := Nat.ceilDiv_eq_add_pred_div a b
  refine ⟨hdef.symm, ?_, ?_⟩
  · have hle : a ≤ b • (a ⌈/⌉ b) := le_smul_ceilDiv hb
    simpa [smul_eq_mul, hdef] using hle
  · by_contra hcon
    push_neg at hcon
    have hpos : 1 ≤ a ⌈/⌉ b := by
      by_contra hq
      push_neg at hq
      interval_cases h : a ⌈/⌉ b
      · have : a ≤ b • (0 : ℕ) := by
          have hle : a ≤ b • (a ⌈/⌉ b) := le_smul_ceilDiv hb
          simpa [h] using hle
        simp at this
        exact ha this
    have hle2 : a ⌈/⌉ b ≤ a ⌈/⌉ b - 1 := by
      refine (ceilDiv_le_iff_le_smul hb).2 ?_
      simpa [smul_eq_mul, hdef] using hcon
    omega

/-- Shape of the page count reported by a successful `get_comment_list` call:
ceiling-divided for a nonzero total, one otherwise. -/
theorem get_comment_list_num_pages (env : ThreadEnv) (endorsed : Option Bool)
    (page page_size : Nat) (r : PaginatedResult CCResponse)
    (h : get_comment_list env endorsed page page_size = .ok r) :
    r.num_pages = if r.count ≠ 0 then (r.count + page_size - 1) / page_size else 1 := by
  simp only [get_comment_list] at h
  split at h
  · exact absurd h (by simp)
  · by_cases hq : (‹CCThread›).thread_type = "question"
    · simp only [if_pos hq] at h
      match endorsed with
      | none => exact absurd h (by simp)
      | some true =>
        simp only [] at h
        split at h
        · exact absurd h (by simp)
        · simp only [Except.ok.injEq] at h
          subst h
          by_cases h0 : (‹CCThread›).endorsed_responses.length = 0 <;> simp [h0]
      | some false =>
        simp only [] at h
        split at h
        · exact absurd h (by simp)
        · simp only [Except.ok.injEq] at h
          subst h
          by_cases h0 : (‹CCThread›).non_endorsed_resp_total = 0 <;> simp [h0]
    · simp only [if_neg hq] at h
      match endorsed with
      | some _ => exact absurd h (by simp)
      | none =>
        simp only [] at h
        split at h
        · exact absurd h (by simp)
        · simp only [Except.ok.injEq] at h
          subst h
          by_cases h0 : (‹CCThread›).resp_total = 0 <;> simp [h0]

/-- Shape of the page count reported by a successful `get_response_comments`
call: ceiling-divided for a nonzero total, one otherwise. -/
theorem get_response_comments_num_pages (env : ResponseCommentsEnv) (comment_id : String)
    (page page_size : Nat) (r : PaginatedResult CCChild)
    (h : get_response_comments env comment_id page page_size = .ok r) :
    r.num_pages = if r.count ≠ 0 then (r.count + page_size - 1) / page_size else 1 := by
  simp only [get_response_comments] at h
  split at h
  · exact absurd h (by simp)
  · split at h
    · exact absurd h (by simp)
    · generalize hL :
        (match
            List.find? (fun resp => resp.id = comment_id)
              (if (‹CCThread›).thread_type = "question" then
                (‹CCThread›).endorsed_responses ++ (‹CCThread›).non_endorsed_responses
              else (‹CCThread›).children) with
          | some resp => resp.children
          | none => []) = L at h
      split at h
      · exact absurd h (by simp)
      · simp only [Except.ok.injEq] at h
        subst h
        by_cases h0 : L.length = 0 <;> simp [h0]

/-- C9 counterexample: listing the comments of an empty discussion thread
succeeds with a reported page count of one, while the ceiling of the zero
total divided by the page size is zero, so the reported number of pages is
not the ceiling of total over page size. -/
theorem comment_listing_page_count_counterexample :
    get_comment_list
        (ThreadEnv.mk
          (some { course_id := "c", commentable_id := "t", thread_type := "discussion",
                  closed := false, read := false, group_id := none, children := [],
                  resp_total := 0, endorsed_responses := [], non_endorsed_responses := [],
                  non_endorsed_resp_total := 0 })
          (.ok ()) false false none) none 1 10 =
      .ok { page := 1, num_pages := 1, count := 0, results := [],
            text_search_rewrite := none } ∧
    (1 : ℕ) ≠ (0 : ℕ) ⌈/⌉ 10 := by
  constructor
  · rfl
  · decide

/-- C9 amended: for every successful comment listing (`get_comment_list` and
`get_response_comments`) with a positive page size, the reported number of
pages equals the ceiling of the total count divided by the page size whenever
the total is nonzero (equivalently, it is the least page count covering the
total), and is reported as one page for an empty collection. -/
theorem comment_listing_page_count (env : ThreadEnv) (renv : ResponseCommentsEnv)
    (endorsed : Option Bool) (comment_id : String)
    (page page_size page2 page_size2 : Nat)
    (r : PaginatedResult CCResponse) (r2 : PaginatedResult CCChild)
    (hps : 0 < page_size) (hps2 : 0 < page_size2)
    (h : get_comment_list env endorsed page page_size = .ok r)
    (h2 : get_response_comments renv comment_id page2 page_size2 = .ok r2) :
    ((r.count ≠ 0 →
        r.num_pages = r.count ⌈/⌉ page_size ∧
        r.count ≤ page_size * r.num_pages ∧
        page_size * (r.num_pages - 1) < r.count) ∧
      (r.count = 0 → r.num_pages = 1)) ∧
    ((r2.count ≠ 0 →
        r2.num_pages = r2.count ⌈/⌉ page_size2 ∧
        r2.count ≤ page_size2 * r2.num_pages ∧
        page_size2 * (r2.num_pages - 1) < r2.count) ∧
      (r2.count = 0 → r2.num_pages = 1)) := by
  have hs := get_comment_list_num_pages env endorsed page page_size r h
  have hs2 := get_response_comments_num_pages renv comment_id page2 page_size2 r2 h2
  constructor
  · constructor
    · intro hc
      rw [if_pos hc] at hs
      obtain ⟨he, hub, hlb⟩ := add_pred_div_is_ceil r.count page_size hps hc
      exact ⟨by rw [hs, he], by rw [hs]; exact hub, by rw [hs]; exact hlb⟩
    · intro hc
      rw [if_neg (by simp [hc])] at hs
      exact hs
  · constructor
    · intro hc
      rw [if_pos hc] at hs2
      obtain ⟨he, hub, hlb⟩ := add_pred_div_is_ceil r2.count page_size2 hps2 hc
      exact ⟨by rw [hs2, he], by rw [hs2]; exact hub, by rw [hs2]; exact hlb⟩
    · intro hc
      rw [if_neg (by simp [hc])] at hs2
      exact hs2

/-- Witness for C9 (amended) at concrete inputs: a discussion thread with a
total of 25 responses at page size 10 reports 3 pages, which is the ceiling,
and a response with one child comment reports one page. -/
theorem comment_listing_page_count_witness :
    (0 : ℕ) < 10 ∧
    get_comment_list
        (ThreadEnv.mk
          (some { course_id := "c", commentable_id := "t", thread_type := "discussion",
                  closed := false, read := false, group_id := none, children := [],
                  resp_total := 25, endorsed_responses := [], non_endorsed_responses := [],
                  non_endorsed_resp_total := 0 })
          (.ok ()) false false none) none 1 10 =
      .ok { page := 1, num_pages := 3, count := 25, results := [],
            text_search_rewrite := none } ∧
    get_response_comments
        (ResponseCommentsEnv.mk (some { id := "c1", thread_id := "t1" })
          (ThreadEnv.mk
            (some { course_id := "c", commentable_id := "t", thread_type := "discussion",
                    closed := false, read := false, group_id := none,
                    children := [{ id := "c1", children := [{ id := "k1" }] }],
                    resp_total := 1, endorsed_responses := [], non_endorsed_responses := [],
                    non_endorsed_resp_total := 0 })
            (.ok ()) false false none))
        "c1" 1 10 =
      .ok { page := 1, num_pages := 1, count := 1, results := [{ id := "k1" }],
            text_search_rewrite := none } ∧
    (PaginatedResult.num_pages
        { page := 1, num_pages := 3, count := 25, results := ([] : List CCResponse),
          text_search_rewrite := none } =
      (25 : ℕ) ⌈/⌉ 10 ∧
      PaginatedResult.num_pages
        { page := 1, num_pages := 1, count := 1, results := [CCChild.mk "k1"],
          text_search_rewrite := none } =
      (1 : ℕ) ⌈/⌉ 10) := by
  refine ⟨by decide, rfl, rfl, ?_, ?_⟩
  · exact ((comment_listing_page_count
      (ThreadEnv.mk
        (some { course_id := "c", commentable_id := "t", thread_type := "discussion",
                closed := false, read := false, group_id := none, children := [],
                resp_total := 25, endorsed_responses := [], non_endorsed_responses := [],
                non_endorsed_resp_total := 0 })
        (.ok ()) false false none)
      (ResponseCommentsEnv.mk (some { id := "c1", thread_id := "t1" })
        (ThreadEnv.mk
          (some { course_id := "c", commentable_id := "t", thread_type := "discussion",
                  closed := false, read := false, group_id := none,
                  children := [{ id := "c1", children := [{ id := "k1" }] }],
                  resp_total := 1, endorsed_responses := [], non_endorsed_responses := [],
                  non_endorsed_resp_total := 0 })
          (.ok ()) false false none))
      none "c1" 1 10 1 10
      { page := 1, num_pages := 3, count := 25, results := [], text_search_rewrite := none }
      { page := 1, num_pages := 1, count := 1, results := [{ id := "k1" }],
        text_search_rewrite := none }
      (by decide) (by decide) rfl rfl).1.1 (by decide)).1
  · exact ((comment_listing_page_count
      (ThreadEnv.mk
        (some { course_id := "c", commentable_id := "t", thread_type := "discussion",
                closed := false, read := false, group_id := none, children := [],
                resp_total := 25, endorsed_responses := [], non_endorsed_responses := [],
                non_endorsed_resp_total := 0 })
        (.ok ()) false false none)
      (ResponseCommentsEnv.mk (some { id := "c1", thread_id := "t1" })
        (ThreadEnv.mk
          (some { course_id := "c", commentable_id := "t", thread_type := "discussion",
                  closed := false, read := false, group_id := none,
                  children := [{ id := "c1", children := [{ id := "k1" }] }],
                  resp_total := 1, endorsed_responses := [], non_endorsed_responses := [],
                  non_endorsed_resp_total := 0 })
          (.ok ()) false false none))
      none "c1" 1 10 1 10
      { page := 1, num_pages := 3, count := 25, results := [], text_search_rewrite := none }
      { page := 1, num_pages := 1, count := 1, results := [{ id := "k1" }],
        text_search_rewrite := none }
      (by decide) (by decide) rfl rfl).2.1 (by decide)).1

/-! ## Claim C8: voting true then false restores the vote count -/

/-- C8: for any thread or comment payload, applying the voted action with
value true and then with value false returns the vote count to its original
value, and each of the two calls emits a vote tracking event (and the voted
signal).  Stated both for `_handle_voted_field` directly and for the action
dispatch of `_do_extra_actions` on a not-yet-voted payload. -/
theorem vote_then_unvote_restores_count (kind : EntityKind) (api_content : Payload) :
    ((_handle_voted_field kind false
        (_handle_voted_field kind true api_content).1).1.vote_count =
      api_content.vote_count ∧
      Effect.track_voted_event false ∈ (_handle_voted_field kind true api_content).2 ∧
      Effect.track_voted_event true ∈
        (_handle_voted_field kind false (_handle_voted_field kind true api_content).1).2) ∧
    (api_content.voted = false →
      ∀ (cc_read : Bool) (c1 c2 : ActionsCleaned), c1.voted = true → c2.voted = false →
        _do_extra_actions kind cc_read ["voted"] c1.threadItems api_content =
          .ok ({ api_content with voted := true, vote_count := api_content.vote_count + 1 },
               [(if kind = EntityKind.thread then Effect.thread_voted_signal
                 else Effect.comment_voted_signal),
                Effect.vote_up, Effect.track_voted_event false]) ∧
        _do_extra_actions kind cc_read ["voted"] c2.threadItems
            { api_content with voted := true, vote_count := api_content.vote_count + 1 } =
          .ok ({ api_content with
                 voted := false
                 vote_count := api_content.vote_count + 1 - 1 },
               [(if kind = EntityKind.thread then Effect.thread_voted_signal
                 else Effect.comment_voted_signal),
                Effect.unvote, Effect.track_voted_event true]) ∧
        api_content.vote_count + 1 - 1 = api_content.vote_count) := by
  constructor
  · refine ⟨?_, ?_, ?_⟩ <;> simp [_handle_voted_field]
  · intro hvoted cc_read c1 c2 h1 h2
    refine ⟨?_, ?_, by omega⟩
    · simp [_do_extra_actions, extraActionStep, ActionsCleaned.threadItems, List.foldlM, Payload.getAction,
        Payload.setAction, applyAction, _handle_voted_field, hvoted, h1, bind, Except.bind, pure, Except.pure]
    · simp [_do_extra_actions, extraActionStep, ActionsCleaned.threadItems, List.foldlM, Payload.getAction,
        Payload.setAction, applyAction, _handle_voted_field, h2, bind, Except.bind, pure, Except.pure]

/-- Witness for C8 at a concrete payload: an unvoted thread payload with vote
count 5 is voted and unvoted through the dispatcher and ends at vote count
5. -/
theorem vote_then_unvote_restores_count_witness :
    (Payload.mk false 0 5 false false false false).voted = false ∧
    _do_extra_actions EntityKind.thread false ["voted"]
        (ActionsCleaned.threadItems (ActionsCleaned.mk false true false false false))
        (Payload.mk false 0 5 false false false false) =
      .ok (Payload.mk false 0 6 true false false false,
           [Effect.thread_voted_signal, Effect.vote_up, Effect.track_voted_event false]) ∧
    _do_extra_actions EntityKind.thread false ["voted"]
        (ActionsCleaned.threadItems (ActionsCleaned.mk false false false false false))
        (Payload.mk false 0 6 true false false false) =
      .ok (Payload.mk false 0 5 false false false false,
           [Effect.thread_voted_signal, Effect.unvote, Effect.track_voted_event true]) := by
  have h := ((vote_then_unvote_restores_count EntityKind.thread
    (Payload.mk false 0 5 false false false false)).2 rfl false
    (ActionsCleaned.mk false true false false false)
    (ActionsCleaned.mk false false false false false) rfl rfl)
  refine ⟨rfl, ?_, ?_⟩
  · exact h.1
  · have h2 := h.2.1
    simpa using h2

/-! ## Claim C4: updates save and signal exactly when a core field is present -/

/-- The handler effects of a single dispatched action are comment-service
calls, vote signals and tracking events; none of them is the save or an edit
signal. -/
theorem applyAction_effects (kind : EntityKind) (cc_read : Bool) (field : String)
    (form_value : Bool) (p p2 : Payload) (hEffs : List Effect)
    (h : applyAction kind cc_read field form_value p = .ok (p2, hEffs)) :
    ∀ e ∈ hEffs,
      e ≠ Effect.save ∧ e ≠ Effect.thread_edited_signal ∧ e ≠ Effect.comment_edited_signal := by
  cases kind <;>
    (simp only [applyAction, _handle_voted_field, _handle_read_field] at h
     split_ifs at h <;>
       (injection h with h3
        injection h3 with hp hl
        subst hl
        decide))

/-- The extra-action dispatch only accumulates handler effects: a successful
`_do_extra_actions` run emits no save and no edit signal. -/
theorem do_extra_actions_no_save (kind : EntityKind) (cc_read : Bool)
    (request_fields : List String) :
    ∀ (items : List (String × Bool)) (st res : Payload × List Effect),
      items.foldlM (extraActionStep kind cc_read request_fields) st = .ok res →
      ∀ e ∈ res.2,
        e ∈ st.2 ∨
          (e ≠ Effect.save ∧ e ≠ Effect.thread_edited_signal ∧
            e ≠ Effect.comment_edited_signal) := by
  intro items
  induction items with
  | nil =>
    intro st res h e he
    simp only [List.foldlM] at h
    cases h
    exact Or.inl he
  | cons item rest ih =>
    intro st res h e he
    simp only [List.foldlM] at h
    cases hstep : extraActionStep kind cc_read request_fields st item with
    | error err => rw [hstep] at h; simp [bind, Except.bind] at h
    | ok st2 =>
      rw [hstep] at h
      simp only [bind, Except.bind] at h
      have hsub : ∀ e2 ∈ st2.2,
          e2 ∈ st.2 ∨
            (e2 ≠ Effect.save ∧ e2 ≠ Effect.thread_edited_signal ∧
              e2 ≠ Effect.comment_edited_signal) := by
        intro e2 he2
        simp only [extraActionStep] at hstep
        split at hstep
        · cases happ : applyAction kind cc_read item.1 item.2
              (st.1.setAction item.1 item.2) with
          | error err => rw [happ] at hstep; exact absurd hstep (by simp)
          | ok pr =>
            rw [happ] at hstep
            obtain ⟨p2, hEffs⟩ := pr
            simp only [Except.ok.injEq] at hstep
            subst hstep
            simp only [] at he2
            rcases List.mem_append.1 he2 with hin2 | hin2
            · exact Or.inl hin2
            · exact Or.inr (applyAction_effects kind cc_read item.1 item.2
                (st.1.setAction item.1 item.2) p2 hEffs happ e2 hin2)
        · cases hstep
          exact Or.inl he2
      rcases ih st2 res h e he with hin | hgood
      · exact hsub e hin
      · exact Or.inr hgood

/-- A truthy non-empty filter of the update keys by exclusion from the action
fields is equivalent to a core field being present among the update keys. -/
theorem core_field_filter_iff (keys fields : List String) :
    (!(keys.filter (fun k => !fields.contains k)).isEmpty) = true ↔
      ∃ k ∈ keys, k ∉ fields := by
  simp [List.isEmpty_iff, List.filter_eq_nil_iff]

/-- C4: a successful `update_thread` persists the record and fires the thread
edit signal if and only if the update data holds a key outside the thread
action-form fields, and a successful `update_comment` does so with the comment
edit signal and the comment action-form fields; update data holding only
action fields produces neither a save nor an edit signal. -/
theorem update_saves_iff_core_field_present (uenv : UpdateThreadEnv)
    (cenv : UpdateCommentEnv) (p p2 : Payload) (effs effs2 : List Effect)
    (h : update_thread uenv = .ok (p, effs))
    (h2 : update_comment cenv = .ok (p2, effs2)) :
    ((Effect.save ∈ effs ↔ ∃ k ∈ uenv.updateKeys, k ∉ threadActionFields) ∧
      (Effect.thread_edited_signal ∈ effs ↔ ∃ k ∈ uenv.updateKeys, k ∉ threadActionFields)) ∧
    ((Effect.save ∈ effs2 ↔ ∃ k ∈ cenv.updateKeys, k ∉ commentActionFields) ∧
      (Effect.comment_edited_signal ∈ effs2 ↔
        ∃ k ∈ cenv.updateKeys, k ∉ commentActionFields)) := by
  constructor
  · simp only [update_thread] at h
    split at h
    · exact absurd h (by simp)
    · split at h
      · exact absurd h (by simp)
      · split at h
        · exact absurd h (by simp)
        · split at h
          · exact absurd h (by simp)
          · rename_i api_t extraEffs happ
            simp only [Except.ok.injEq, Prod.mk.injEq] at h
            obtain ⟨-, heffs⟩ := h
            subst heffs
            have hextra := do_extra_actions_no_save EntityKind.thread _
              uenv.updateKeys uenv.cleaned.threadItems (uenv.serializerData, [])
              (api_t, extraEffs) (by simpa [_do_extra_actions] using happ)
            by_cases hc :
                (!(uenv.updateKeys.filter
                    (fun k => !threadActionFields.contains k)).isEmpty) = true
            · have hex := (core_field_filter_iff uenv.updateKeys threadActionFields).1 hc
              constructor <;> simp [hc, hex]
            · have hex := (core_field_filter_iff uenv.updateKeys threadActionFields).not.1 hc
              constructor
              · rw [if_neg hc]
                simp only [List.nil_append]
                constructor
                · intro hmem
                  rcases hextra Effect.save hmem with hin | hgood
                  · simp at hin
                  · exact absurd rfl hgood.1
                · intro hx
                  exact absurd hx hex
              · rw [if_neg hc]
                simp only [List.nil_append]
                constructor
                · intro hmem
                  rcases hextra Effect.thread_edited_signal hmem with hin | hgood
                  · simp at hin
                  · exact absurd rfl hgood.2.1
                · intro hx
                  exact absurd hx hex
  · simp only [update_comment] at h2
    split at h2
    · exact absurd h2 (by simp)
    · split at h2
      · exact absurd h2 (by simp)
      · split at h2
        · exact absurd h2 (by simp)
        · split at h2
          · exact absurd h2 (by simp)
          · rename_i api_c extraEffs happ
            simp only [Except.ok.injEq, Prod.mk.injEq] at h2
            obtain ⟨-, heffs⟩ := h2
            subst heffs
            have hextra := do_extra_actions_no_save EntityKind.comment false
              cenv.updateKeys cenv.cleaned.commentItems (cenv.serializerData, [])
              (api_c, extraEffs) (by simpa [_do_extra_actions] using happ)
            by_cases hc :
                (!(cenv.updateKeys.filter
                    (fun k => !commentActionFields.contains k)).isEmpty) = true
            · have hex := (core_field_filter_iff cenv.updateKeys commentActionFields).1 hc
              constructor <;> simp [hc, hex]
            · have hex := (core_field_filter_iff cenv.updateKeys commentActionFields).not.1 hc
              constructor
              · rw [if_neg hc]
                simp only [List.nil_append]
                constructor
                · intro hmem
                  rcases hextra Effect.save hmem with hin | hgood
                  · simp at hin
                  · exact absurd rfl hgood.1
                · intro hx
                  exact absurd hx hex
              · rw [if_neg hc]
                simp only [List.nil_append]
                constructor
                · intro hmem
                  rcases hextra Effect.comment_edited_signal hmem with hin | hgood
                  · simp at hin
                  · exact absurd rfl hgood.2.2
                · intro hx
                  exact absurd hx hex

/-- Witness for C4 at concrete inputs: a thread update carrying the core field
raw body saves and fires the thread edit signal, while a comment update
carrying only the voted action field performs the vote side effects but
neither saves nor fires the comment edit signal. -/
theorem update_saves_iff_core_field_present_witness :
    update_thread
        (UpdateThreadEnv.mk
          (ThreadEnv.mk
            (some { course_id := "c", commentable_id := "t", thread_type := "discussion",
                    closed := false, read := false, group_id := none, children := [],
                    resp_total := 0, endorsed_responses := [], non_endorsed_responses := [],
                    non_endorsed_resp_total := 0 })
            (.ok ()) false false none)
          ["raw_body"] ["raw_body"] true true []
          (Payload.mk false 0 0 false false false false)
          (ActionsCleaned.mk false false false false false)) =
      .ok (Payload.mk true 0 0 false false false false,
           [Effect.save, Effect.thread_edited_signal]) ∧
    update_comment
        (UpdateCommentEnv.mk
          (CommentEnv.mk (some { id := "c1", thread_id := "t1" })
            (ThreadEnv.mk
              (some { course_id := "c", commentable_id := "t", thread_type := "discussion",
                      closed := false, read := false, group_id := none, children := [],
                      resp_total := 0, endorsed_responses := [], non_endorsed_responses := [],
                      non_endorsed_resp_total := 0 })
              (.ok ()) false false none))
          ["voted"] ["voted"] true true []
          (Payload.mk false 0 0 false false false false)
          (ActionsCleaned.mk false true false false false)) =
      .ok (Payload.mk false 0 1 true false false false,
           [Effect.comment_voted_signal, Effect.vote_up, Effect.track_voted_event false]) ∧
    ((Effect.save ∈ [Effect.save, Effect.thread_edited_signal] ↔
        ∃ k ∈ ["raw_body"], k ∉ threadActionFields) ∧
      (Effect.thread_edited_signal ∈ [Effect.save, Effect.thread_edited_signal] ↔
        ∃ k ∈ ["raw_body"], k ∉ threadActionFields)) ∧
    ((Effect.save ∈
        [Effect.comment_voted_signal, Effect.vote_up, Effect.track_voted_event false] ↔
        ∃ k ∈ ["voted"], k ∉ commentActionFields) ∧
      (Effect.comment_edited_signal ∈
        [Effect.comment_voted_signal, Effect.vote_up, Effect.track_voted_event false] ↔
        ∃ k ∈ ["voted"], k ∉ commentActionFields)) := by
  refine ⟨rfl, rfl, ?_⟩
  exact update_saves_iff_core_field_present
    (UpdateThreadEnv.mk
      (ThreadEnv.mk
        (some { course_id := "c", commentable_id := "t", thread_type := "discussion",
                closed := false, read := false, group_id := none, children := [],
                resp_total := 0, endorsed_responses := [], non_endorsed_responses := [],
                non_endorsed_resp_total := 0 })
        (.ok ()) false false none)
      ["raw_body"] ["raw_body"] true true []
      (Payload.mk false 0 0 false false false false)
      (ActionsCleaned.mk false false false false false))
    (UpdateCommentEnv.mk
      (CommentEnv.mk (some { id := "c1", thread_id := "t1" })
        (ThreadEnv.mk
          (some { course_id := "c", commentable_id := "t", thread_type := "discussion",
                  closed := false, read := false, group_id := none, children := [],
                  resp_total := 0, endorsed_responses := [], non_endorsed_responses := [],
                  non_endorsed_resp_total := 0 })
          (.ok ()) false false none))
      ["voted"] ["voted"] true true []
      (Payload.mk false 0 0 false false false false)
      (ActionsCleaned.mk false true false false false))
    (Payload.mk true 0 0 false false false false)
    (Payload.mk false 0 1 true false false false)
    [Effect.save, Effect.thread_edited_signal]
    [Effect.comment_voted_signal, Effect.vote_up, Effect.track_voted_event false]
    rfl rfl

/-! ## Claim C5: the unconditional read override of the update handlers -/

/-- Dispatching the voted or abuse-flag action leaves the read field of the
payload unchanged. -/
theorem extraActionStep_preserves_read (kind : EntityKind) (cc_read : Bool)
    (request_fields : List String) (st : Payload × List Effect) (field : String) (v : Bool)
    (res : Payload × List Effect)
    (hf : field = "voted" ∨ field = "abuse_flagged")
    (h : extraActionStep kind cc_read request_fields st (field, v) = .ok res) :
    res.1.read = st.1.read := by
  rcases hf with rfl | rfl <;>
    (simp only [extraActionStep, applyAction, _handle_voted_field, Payload.setAction,
       reduceIte] at h
     split_ifs at h <;>
       (injection h with h3
        rw [← h3]))

/-- The comment extra actions (voted and abuse flag) leave the read field of
the payload unchanged. -/
theorem comment_items_preserve_read (kind : EntityKind) (cc_read : Bool)
    (request_fields : List String) (c : ActionsCleaned) (st res : Payload × List Effect)
    (h : (ActionsCleaned.commentItems c).foldlM
      (extraActionStep kind cc_read request_fields) st = .ok res) :
    res.1.read = st.1.read := by
  simp only [ActionsCleaned.commentItems, List.foldlM, bind, Except.bind] at h
  cases h1 : extraActionStep kind cc_read request_fields st ("voted", c.voted) with
  | error e => rw [h1] at h; simp at h
  | ok s1 =>
    rw [h1] at h
    dsimp only at h
    cases h2 : extraActionStep kind cc_read request_fields s1
        ("abuse_flagged", c.abuse_flagged) with
    | error e => rw [h2] at h; simp at h
    | ok s2 =>
      rw [h2] at h
      simp only [pure, Except.pure, Except.ok.injEq] at h
      rw [← h]
      rw [extraActionStep_preserves_read kind cc_read request_fields s1 "abuse_flagged"
        c.abuse_flagged s2 (Or.inr rfl) h2]
      exact extraActionStep_preserves_read kind cc_read request_fields st "voted"
        c.voted s1 (Or.inl rfl) h1

/-- C5 counterexample: a successful comment update (editing the raw body of a
comment whose serialized payload is unread) returns a payload with read still
false, so not every successful update operation reports the item as read. -/
theorem update_read_override_counterexample :
    update_comment
        (UpdateCommentEnv.mk
          (CommentEnv.mk (some { id := "c1", thread_id := "t1" })
            (ThreadEnv.mk
              (some { course_id := "c", commentable_id := "t", thread_type := "discussion",
                      closed := false, read := false, group_id := none, children := [],
                      resp_total := 0, endorsed_responses := [], non_endorsed_responses := [],
                      non_endorsed_resp_total := 0 })
              (.ok ()) false false none))
          ["raw_body"] ["raw_body"] true true []
          (Payload.mk false 0 0 false false false false)
          (ActionsCleaned.mk false false false false false)) =
      .ok (Payload.mk false 0 0 false false false false,
           [Effect.save, Effect.comment_edited_signal]) ∧
    (Payload.mk false 0 0 false false false false).read = false := by
  exact ⟨rfl, rfl⟩

/-- C5 amended: every successful `update_thread` unconditionally reports the
thread as read with a zero unread comment count regardless of its actual read
state, while `update_comment` applies no such override: its returned payload
keeps the read value of the serialized comment. -/
theorem update_read_override (uenv : UpdateThreadEnv) (cenv : UpdateCommentEnv)
    (p p2 : Payload) (effs effs2 : List Effect)
    (h : update_thread uenv = .ok (p, effs))
    (h2 : update_comment cenv = .ok (p2, effs2)) :
    (p.read = true ∧ p.unread_comment_count = 0) ∧
      p2.read = cenv.serializerData.read := by
  constructor
  · simp only [update_thread] at h
    split at h
    · exact absurd h (by simp)
    · split at h
      · exact absurd h (by simp)
      · split at h
        · exact absurd h (by simp)
        · split at h
          · exact absurd h (by simp)
          · simp only [Except.ok.injEq, Prod.mk.injEq] at h
            obtain ⟨hp, -⟩ := h
            rw [← hp]
            exact ⟨rfl, rfl⟩
  · simp only [update_comment] at h2
    split at h2
    · exact absurd h2 (by simp)
    · split at h2
      · exact absurd h2 (by simp)
      · split at h2
        · exact absurd h2 (by simp)
        · split at h2
          · exact absurd h2 (by simp)
          · rename_i api_c extraEffs happ
            simp only [Except.ok.injEq, Prod.mk.injEq] at h2
            obtain ⟨hp, -⟩ := h2
            rw [← hp]
            exact comment_items_preserve_read EntityKind.comment false cenv.updateKeys
              cenv.cleaned (cenv.serializerData, []) (api_c, extraEffs)
              (by simpa [_do_extra_actions] using happ)

/-- Witness for C5 (amended) at concrete inputs: a thread update over an
unread serialized payload still reports read true with zero unread count,
and a comment update over an unread serialized payload reports exactly the
serialized read value. -/
theorem update_read_override_witness :
    update_thread
        (UpdateThreadEnv.mk
          (ThreadEnv.mk
            (some { course_id := "c", commentable_id := "t", thread_type := "discussion",
                    closed := false, read := false, group_id := none, children := [],
                    resp_total := 0, endorsed_responses := [], non_endorsed_responses := [],
                    non_endorsed_resp_total := 0 })
            (.ok ()) false false none)
          ["raw_body"] ["raw_body"] true true []
          (Payload.mk false 7 0 false false false false)
          (ActionsCleaned.mk false false false false false)) =
      .ok (Payload.mk true 0 0 false false false false,
           [Effect.save, Effect.thread_edited_signal]) ∧
    update_comment
        (UpdateCommentEnv.mk
          (CommentEnv.mk (some { id := "c2", thread_id := "t2" })
            (ThreadEnv.mk
              (some { course_id := "c", commentable_id := "t", thread_type := "discussion",
                      closed := false, read := false, group_id := none, children := [],
                      resp_total := 0, endorsed_responses := [], non_endorsed_responses := [],
                      non_endorsed_resp_total := 0 })
              (.ok ()) false false none))
          ["raw_body"] ["raw_body"] true true []
          (Payload.mk false 7 0 false false false false)
          (ActionsCleaned.mk false false false false false)) =
      .ok (Payload.mk false 7 0 false false false false,
           [Effect.save, Effect.comment_edited_signal]) ∧
    ((Payload.mk true 0 0 false false false false).read = true ∧
      (Payload.mk true 0 0 false false false false).unread_comment_count = 0) ∧
    (Payload.mk false 7 0 false false false false).read =
      (Payload.mk false 7 0 false false false false).read := by
  refine ⟨rfl, rfl, ?_⟩
  exact update_read_override
    (UpdateThreadEnv.mk
      (ThreadEnv.mk
        (some { course_id := "c", commentable_id := "t", thread_type := "discussion",
                closed := false, read := false, group_id := none, children := [],
                resp_total := 0, endorsed_responses := [], non_endorsed_responses := [],
                non_endorsed_resp_total := 0 })
        (.ok ()) false false none)
      ["raw_body"] ["raw_body"] true true []
      (Payload.mk false 7 0 false false false false)
      (ActionsCleaned.mk false false false false false))
    (UpdateCommentEnv.mk
      (CommentEnv.mk (some { id := "c2", thread_id := "t2" })
        (ThreadEnv.mk
          (some { course_id := "c", commentable_id := "t", thread_type := "discussion",
                  closed := false, read := false, group_id := none, children := [],
                  resp_total := 0, endorsed_responses := [], non_endorsed_responses := [],
                  non_endorsed_resp_total := 0 })
          (.ok ()) false false none))
      ["raw_body"] ["raw_body"] true true []
      (Payload.mk false 7 0 false false false false)
      (ActionsCleaned.mk false false false false false))
    (Payload.mk true 0 0 false false false false)
    (Payload.mk false 7 0 false false false false)
    [Effect.save, Effect.thread_edited_signal]
    [Effect.save, Effect.comment_edited_signal]
    rfl rfl

/-! ## Claim C6: unknown author filter yields an empty page, not an error -/

/-- C6: a thread listing whose author filter names a username unknown to the
user store returns an empty paginated result (zero results, count zero)
instead of an error, whatever the remaining filter parameters are. -/
theorem author_not_found_returns_empty (env : ThreadListEnv) (args : ThreadListArgs)
    (page page_size : Nat) (a : String)
    (hexcl : exclusiveParamCount args ≤ 1)
    (horder : (cc_map args.order_by).isSome = true)
    (hdir : args.order_direction = "desc")
    (hcourse : env.courseAccess = .ok ())
    (hauthor : args.author = some a) (ha : a ≠ "")
    (hlookup : env.lookup_user_id a = none) :
    get_thread_list env args page page_size =
      .ok { page := 0, num_pages := 1, count := 0, results := [],
            text_search_rewrite := none } := by
  have hnotgt : ¬ exclusiveParamCount args > 1 := by omega
  have hisnone : (cc_map args.order_by).isNone = false := by
    simp [Option.isNone_eq_false_iff, ← Option.isSome_iff_exists]
    simpa using horder
  simp [get_thread_list, hnotgt, hisnone, hdir, hcourse, hauthor, optStrTruthy, ha, hlookup]

/-- Witness for C6 at concrete inputs: filtering by the unknown author ghost
returns the empty page even though the non-privileged requester also set
`count_flagged`, which would otherwise be rejected. -/
theorem author_not_found_returns_empty_witness :
    (ThreadListEnv.mk (.ok ()) "course-v1" 7 false none (fun _ => none)
        (fun _ => ServicePage.mk 1 1 0 [] none)
        (fun _ => ServicePage.mk 1 1 0 [] none)).lookup_user_id "ghost" = none ∧
    get_thread_list
        (ThreadListEnv.mk (.ok ()) "course-v1" 7 false none (fun _ => none)
          (fun _ => ServicePage.mk 1 1 0 [] none)
          (fun _ => ServicePage.mk 1 1 0 [] none))
        (ThreadListArgs.mk none none false (some "ghost") none none none
          "last_activity_at" "desc" (some true))
        1 10 =
      .ok { page := 0, num_pages := 1, count := 0, results := [],
            text_search_rewrite := none } := by
  refine ⟨rfl, ?_⟩
  exact author_not_found_returns_empty
    (ThreadListEnv.mk (.ok ()) "course-v1" 7 false none (fun _ => none)
      (fun _ => ServicePage.mk 1 1 0 [] none)
      (fun _ => ServicePage.mk 1 1 0 [] none))
    (ThreadListArgs.mk none none false (some "ghost") none none none
      "last_activity_at" "desc" (some true))
    1 10 "ghost" (by decide) rfl rfl rfl rfl (by decide) rfl

/-! ## Claim C10: an unrecognized view filter is silently dropped -/

/-- C10: a thread listing with a view value other than unread or unanswered
raises no validation error; the view is dropped from the service query (the
validation-error object of the source is built but never raised), so the
query parameters and the whole result coincide with those of the same call
without a view filter. -/
theorem invalid_view_silently_dropped (env : ThreadListEnv) (args : ThreadListArgs)
    (page page_size : Nat) (v : String)
    (hv : v ≠ "unread") (hv2 : v ≠ "unanswered") :
    (∀ author_id : Option Nat,
      threadListServiceResponse env { args with view := some v } page page_size author_id =
        threadListServiceResponse env { args with view := none } page page_size author_id) ∧
    get_thread_list env { args with view := some v } page page_size =
      get_thread_list env { args with view := none } page page_size := by
  have hview : ∀ qp : QueryParams, applyView qp (some v) = applyView qp none := by
    intro qp
    by_cases hv0 : v = ""
    · simp [applyView, optStrTruthy, hv0]
    · simp [applyView, optStrTruthy, hv0, hv, hv2]
  have hresp : ∀ author_id : Option Nat,
      threadListServiceResponse env { args with view := some v } page page_size author_id =
        threadListServiceResponse env { args with view := none } page page_size author_id := by
    intro author_id
    simp only [threadListServiceResponse, hview]
  refine ⟨hresp, ?_⟩
  simp only [get_thread_list, exclusiveParamCount, hresp]

/-- Witness for C10 at concrete inputs: the view value recent is not a
recognized filter and the call returns exactly what the call with no view
filter returns. -/
theorem invalid_view_silently_dropped_witness :
    ("recent" : String) ≠ "unread" ∧
    get_thread_list
        (ThreadListEnv.mk (.ok ()) "course-v1" 7 false none (fun _ => none)
          (fun _ => ServicePage.mk 1 1 0 [] none)
          (fun _ => ServicePage.mk 1 1 0 [] none))
        (ThreadListArgs.mk none none false none none none (some "recent")
          "last_activity_at" "desc" none)
        1 10 =
      get_thread_list
        (ThreadListEnv.mk (.ok ()) "course-v1" 7 false none (fun _ => none)
          (fun _ => ServicePage.mk 1 1 0 [] none)
          (fun _ => ServicePage.mk 1 1 0 [] none))
        (ThreadListArgs.mk none none false none none none none
          "last_activity_at" "desc" none)
        1 10 := by
  refine ⟨by decide, ?_⟩
  exact (invalid_view_silently_dropped
    (ThreadListEnv.mk (.ok ()) "course-v1" 7 false none (fun _ => none)
      (fun _ => ServicePage.mk 1 1 0 [] none)
      (fun _ => ServicePage.mk 1 1 0 [] none))
    (ThreadListArgs.mk none none false none none none none
      "last_activity_at" "desc" none)
    1 10 "recent" (by decide) (by decide)).2

/-! ## Claim C7: missing topic ids fail with DiscussionNotFound -/

/-- The requested ids collected by the courseware topic walk are exactly the
requested ids carried by some accessible discussion xblock. -/
theorem mem_courseware_existing (xblocks : List DXBlock) (ids : List String)
    (thread_counts : String → Option (Nat × Nat)) (i : String) :
    i ∈ (get_courseware_topics xblocks (some ids) thread_counts).2 ↔
      optListTruthy (some ids) = true ∧ i ∈ ids ∧
        ∃ x ∈ xblocks, x.discussion_id = i := by
  have hstep : ∀ (acc : List TopicNode × List String) (c : String),
      (coursewareCategoryStep xblocks (some ids) thread_counts acc c).2 =
        acc.2 ++
          ((sortByKey get_xblock_sort_key
              (xblocks.filter (fun x => x.discussion_category = c))).filter
            (fun x =>
              optListTruthy (some ids) && (((some ids : Option (List String))).getD []).contains
                x.discussion_id)).map
            (fun x => x.discussion_id) := fun acc c => rfl
  have hfold : ∀ (cats : List String) (acc : List TopicNode × List String),
      i ∈ (cats.foldl (coursewareCategoryStep xblocks (some ids) thread_counts) acc).2 ↔
        i ∈ acc.2 ∨ ∃ c ∈ cats,
          i ∈ ((sortByKey get_xblock_sort_key
              (xblocks.filter (fun x => x.discussion_category = c))).filter
            (fun x =>
              optListTruthy (some ids) && (((some ids : Option (List String))).getD []).contains
                x.discussion_id)).map
            (fun x => x.discussion_id) := by
    intro cats
    induction cats with
    | nil => intro acc; simp
    | cons c rest ih =>
      intro acc
      rw [List.foldl_cons, ih, hstep]
      simp only [List.mem_append, List.mem_cons]
      constructor
      · rintro (⟨h1 | h1⟩ | ⟨c2, hc2, h2⟩)
        · exact Or.inl h1
        · exact Or.inr ⟨c, Or.inl rfl, h1⟩
        · exact Or.inr ⟨c2, Or.inr hc2, h2⟩
      · rintro (h1 | ⟨c2, rfl | hc2, h2⟩)
        · exact Or.inl (Or.inl h1)
        · exact Or.inl (Or.inr h2)
        · exact Or.inr ⟨c2, hc2, h2⟩
  rw [get_courseware_topics, hfold]
  simp only [List.not_mem_nil, false_or, List.mem_map, List.mem_filter, sortByKey,
    List.mem_mergeSort, sortStrings, List.mem_dedup, Bool.and_eq_true, List.elem_iff,
    Option.getD_some]
  constructor
  · rintro ⟨c, -, x, ⟨⟨hx, -⟩, htr, hin⟩, rfl⟩
    exact ⟨htr, hin, x, hx, rfl⟩
  · rintro ⟨htr, hin, x, hx, rfl⟩
    exact ⟨x.discussion_category, ⟨x, hx, rfl⟩, x, ⟨⟨hx, by simp⟩, htr, hin⟩, rfl⟩

/-- The requested ids collected by the freestanding topic walk are exactly the
requested ids configured as a freestanding discussion topic. -/
theorem mem_non_courseware_existing (discussion_topics : List (String × FreeEntry))
    (ids : List String) (thread_counts : String → Option (Nat × Nat)) (i : String) :
    i ∈ (get_non_courseware_topics discussion_topics (some ids) thread_counts).2 ↔
      optListTruthy (some ids) = true ∧ i ∈ ids ∧
        ∃ item ∈ discussion_topics, item.2.id = i := by
  simp only [get_non_courseware_topics, List.mem_map, List.mem_filter, sortByKey,
    List.mem_mergeSort, Bool.and_eq_true, List.elem_iff, Option.getD_some]
  constructor
  · rintro ⟨item, ⟨hitem, htr, hin⟩, rfl⟩
    exact ⟨htr, hin, item, hitem, rfl⟩
  · rintro ⟨htr, hin, item, hitem, rfl⟩
    exact ⟨item, ⟨hitem, htr, hin⟩, rfl⟩

/-- C7: requesting course topics with a non-empty topic-id filter holding at
least one id that is neither a courseware topic nor a freestanding topic fails
with `DiscussionNotFoundError`, and the ids the error carries are exactly the
requested ids present in neither topic set. -/
theorem get_course_topics_missing_ids (env : CourseTopicsEnv) (ids : List String)
    (i0 : String)
    (hcourse : env.courseAccess = .ok ())
    (hi0 : i0 ∈ ids)
    (hx0 : ∀ x ∈ env.xblocks, x.discussion_id ≠ i0)
    (ht0 : ∀ item ∈ env.discussion_topics, item.2.id ≠ i0) :
    ∃ missing, get_course_topics env (some ids) = .error (.discussionNotFound missing) ∧
      ∀ i, i ∈ missing ↔
        i ∈ ids ∧ (∀ x ∈ env.xblocks, x.discussion_id ≠ i) ∧
          (∀ item ∈ env.discussion_topics, item.2.id ≠ i) := by
  have htruthy : optListTruthy (some ids) = true := by
    simp [optListTruthy, List.isEmpty_iff]
    rintro rfl
    simp at hi0
  have hmem : ∀ i : String,
      i ∈ (ids.filter (fun i =>
        !((get_courseware_topics env.xblocks (some ids) env.thread_counts).2.contains i ||
          (get_non_courseware_topics env.discussion_topics (some ids)
            env.thread_counts).2.contains i))) ↔
        i ∈ ids ∧ (∀ x ∈ env.xblocks, x.discussion_id ≠ i) ∧
          (∀ item ∈ env.discussion_topics, item.2.id ≠ i) := by
    intro i
    simp only [List.mem_filter, Bool.not_eq_eq_eq_not, Bool.not_true, Bool.or_eq_false_iff,
      List.elem_eq_mem, decide_eq_false_iff_not]
    rw [mem_courseware_existing, mem_non_courseware_existing]
    constructor
    · rintro ⟨hin, h1, h2⟩
      refine ⟨hin, ?_, ?_⟩
      · intro x hx hxi
        exact h1 ⟨htruthy, hin, x, hx, hxi⟩
      · intro item hitem hii
        exact h2 ⟨htruthy, hin, item, hitem, hii⟩
    · rintro ⟨hin, h1, h2⟩
      refine ⟨hin, ?_, ?_⟩
      · rintro ⟨-, -, x, hx, hxi⟩
        exact h1 x hx hxi
      · rintro ⟨-, -, item, hitem, hii⟩
        exact h2 item hitem hii
  refine ⟨_, ?_, hmem⟩
  have hne : (ids.filter (fun i =>
      !((get_courseware_topics env.xblocks (some ids) env.thread_counts).2.contains i ||
        (get_non_courseware_topics env.discussion_topics (some ids)
          env.thread_counts).2.contains i))) ≠ [] := by
    intro hempty
    have : i0 ∈ (ids.filter (fun i =>
        !((get_courseware_topics env.xblocks (some ids) env.thread_counts).2.contains i ||
          (get_non_courseware_topics env.discussion_topics (some ids)
            env.thread_counts).2.contains i))) := (hmem i0).2 ⟨hi0, hx0, ht0⟩
    rw [hempty] at this
    simp at this
  simp only [get_course_topics, hcourse, htruthy, if_true, Option.getD_some]
  rw [if_pos (by simpa [List.isEmpty_iff] using hne)]

/-- Witness for C7 at the concrete example of the spec: one freestanding topic
with id t1 and one courseware topic with id t2; requesting ids t1 and t3 fails
with an error naming t3 and not t1. -/
theorem get_course_topics_missing_ids_witness :
    ("t3" : String) ∈ ["t1", "t3"] ∧
    (∃ missing,
      get_course_topics
          (CourseTopicsEnv.mk (.ok ())
            [{ discussion_id := "t2", discussion_category := "Week 1",
               discussion_target := "Topic 2", sort_key := none }]
            [("general", { id := "t1", sort_key := none })]
            (fun _ => none))
          (some ["t1", "t3"]) = .error (.discussionNotFound missing) ∧
      "t3" ∈ missing ∧ "t1" ∉ missing) := by
  refine ⟨by decide, ?_⟩
  obtain ⟨missing, heq, hiff⟩ := get_course_topics_missing_ids
    (CourseTopicsEnv.mk (.ok ())
      [{ discussion_id := "t2", discussion_category := "Week 1",
         discussion_target := "Topic 2", sort_key := none }]
      [("general", { id := "t1", sort_key := none })]
      (fun _ => none))
    ["t1", "t3"] "t3" rfl (by decide) (by decide) (by decide)
  refine ⟨missing, heq, ?_, ?_⟩
  · exact (hiff "t3").2 ⟨by decide, by decide, by decide⟩
  · intro hmem
    have hchar := (hiff "t1").1 hmem
    exact absurd rfl (hchar.2.2 ("general", { id := "t1", sort_key := none }) (by decide))

end DiscussionApi
